import Mathlib

/-!
Verification development for the DataViz-Dashboard repository.

The repository's tabular data is embedded as a `DataFrame` of typed cells.
`src/data_loader.py` is embedded by `load_data` and `get_dataset_overview`;
`src/App.py`'s entry point by `get_main_dataframe` and `appPrepareDf`;
`src/app.py`'s filtering and aggregate logic by `applyFilters` and the
KPI definitions.  The transaction-analytics core described by the spec
(temporal aggregator, co-occurrence engine) has no source under `src/`
and is modelled from the spec where needed.
-/

/-- Declared column type of a pandas column (`df.dtypes` entries). -/
inductive Dtype
  | int64
  | float64
  | obj
deriving DecidableEq

/-- One cell of a tabular dataset; `null` models a pandas missing value. -/
inductive Cell
  | null
  | intV (n : Int)
  | floatV (q : Rat)
  | strV (s : String)
deriving DecidableEq

/-- A parsed tabular dataset (a pandas DataFrame), stored row-major:
`colNames`/`colTypes` describe the columns, `rows` holds the records. -/
structure DataFrame where
  colNames : List String
  colTypes : List Dtype
  rows : List (List Cell)
deriving DecidableEq

/-- Rectangularity of a `DataFrame`: one declared type per column and every
row has exactly one cell per column. -/
def DataFrame.WF (df : DataFrame) : Prop :=
  df.colTypes.length = df.colNames.length ∧
    ∀ r ∈ df.rows, r.length = df.colNames.length

instance (df : DataFrame) : Decidable df.WF := by
  unfold DataFrame.WF; infer_instance

/-- Outcome of an attempted `pd.read_csv` / `pd.read_excel` call:
either a parsed dataset or a raised exception (missing file, malformed
content, any read error). -/
inductive ReadResult
  | ok (df : DataFrame)
  | err

/-- The argument of `load_data` (src/data_loader.py line 6): either a
file-path string or a Streamlit UploadedFile buffer carrying a `.name`. -/
inductive LoadInput
  | path (s : String)
  | buffer (name : String) (key : String)

/-- The name the suffix checks of `load_data` inspect: the path string
itself, or the buffer's `.name` attribute. -/
def LoadInput.name : LoadInput → String
  | .path s => s
  | .buffer n _ => n

/-- Python's `str.endswith`, on the character lists of the two strings. -/
def pyEndsWith (s suffix : String) : Bool :=
  suffix.toList.isSuffixOf s.toList

/-- The `try`/`except` of `load_data` (src/data_loader.py lines 11-25):
a read exception is caught and turned into `None`. -/
def ofRead : ReadResult → Option DataFrame
  | .ok df => some df
  | .err => none

/-- `load_data` (src/data_loader.py lines 6-26), parameterised by the
outcomes of `pd.read_csv` and `pd.read_excel`.  Both the string branch and
the buffer branch test the same suffixes on the input's name; a name with
none of the three suffixes falls through to the final `return None`. -/
def load_data (readCsv readExcel : LoadInput → ReadResult) :
    LoadInput → Option DataFrame
  | .path s =>
    if pyEndsWith s ".csv" then ofRead (readCsv (.path s))
    else if pyEndsWith s ".xls" || pyEndsWith s ".xlsx" then
      ofRead (readExcel (.path s))
    else none
  | .buffer n k =>
    if pyEndsWith n ".csv" then ofRead (readCsv (.buffer n k))
    else if pyEndsWith n ".xls" || pyEndsWith n ".xlsx" then
      ofRead (readExcel (.buffer n k))
    else none

/-- Whether a cell is a pandas missing value (`df.isnull()` per cell). -/
def cellIsNull : Cell → Bool
  | .null => true
  | _ => false

/-- Column `j` of a dataset, as pandas stores it (one list per column). -/
def colCells (df : DataFrame) (j : Nat) : List Cell :=
  df.rows.map (fun r => r.getD j (.strV ""))

/-- `df.isnull().sum().sum()` (src/data_loader.py line 41): per-column
null counts, summed over the columns. -/
def missingValues (df : DataFrame) : Nat :=
  ((List.range df.colNames.length).map
    (fun j => (colCells df j).countP cellIsNull)).sum

/-- The scan behind `df.duplicated()` with its default `keep="first"`:
walk the rows keeping the set of rows already seen; a row equal to an
already-seen row is marked as a duplicate. -/
def dupScan (seen : List (List Cell)) : List (List Cell) → Nat
  | [] => 0
  | r :: rest => (if r ∈ seen then 1 else 0) + dupScan (r :: seen) rest

/-- `df.duplicated().sum()` (src/data_loader.py line 42). -/
def duplicateRows (df : DataFrame) : Nat :=
  dupScan [] df.rows

/-- CPython heap size of one object-column cell, as
`memory_usage(deep=True)` measures it (ASCII string: 49 bytes of header
plus one byte per character; boxed numbers and NaN use fixed sizes). -/
def cellObjBytes : Cell → Nat
  | .null => 24
  | .intV _ => 28
  | .floatV _ => 24
  | .strV s => 49 + s.length

/-- Bytes one column contributes to `df.memory_usage(deep=True)`:
8 bytes per value for the fixed-width numeric dtypes, the summed object
sizes for an object column. -/
def colBytes (t : Dtype) (cells : List Cell) : Nat :=
  match t with
  | .int64 => 8 * cells.length
  | .float64 => 8 * cells.length
  | .obj => (cells.map cellObjBytes).sum

/-- `df.memory_usage(deep=True).sum()` (src/data_loader.py line 35):
the RangeIndex contributes a fixed 132 bytes, each column its own bytes. -/
def memoryBytes (df : DataFrame) : Nat :=
  132 + ((List.range df.colNames.length).map
    (fun j => colBytes (df.colTypes.getD j .obj) (colCells df j))).sum

/-- Python's `round(x, 2)`: round to a whole number of hundredths. -/
def round2 (q : Rat) : Rat :=
  (round (q * 100) : Int) / 100

/-- `round(buffer_memory / 1024 ** 2, 2)` (src/data_loader.py lines 36
and 43): the byte estimate converted to megabytes, rounded to 2 decimals. -/
def memoryUsageMb (df : DataFrame) : Rat :=
  round2 ((memoryBytes df : Rat) / 1024 ^ 2)

/-- `df.dtypes.value_counts().to_dict()` (src/data_loader.py line 44):
each dtype that occurs among the columns, mapped to the number of columns
of that dtype. -/
def columnTypeCounts (df : DataFrame) : List (Dtype × Nat) :=
  df.colTypes.dedup.map (fun t => (t, df.colTypes.count t))

/-- The overview record built by `get_dataset_overview`
(src/data_loader.py lines 38-45). -/
structure Overview where
  nRows : Nat
  nColumns : Nat
  missing : Nat
  duplicates : Nat
  memMb : Rat
  colTypeMap : List (Dtype × Nat)
deriving DecidableEq

/-- The Python function returns either the empty dictionary `{}` (for a
`None` input) or a fully populated overview dictionary. -/
inductive OverviewResult
  | emptyDict
  | full (o : Overview)
deriving DecidableEq

/-- The populated overview dictionary of src/data_loader.py lines 38-45. -/
def overviewOf (df : DataFrame) : Overview :=
  { nRows := df.rows.length
    nColumns := df.colNames.length
    missing := missingValues df
    duplicates := duplicateRows df
    memMb := memoryUsageMb df
    colTypeMap := columnTypeCounts df }

/-- `get_dataset_overview` (src/data_loader.py lines 28-46). -/
def get_dataset_overview : Option DataFrame → OverviewResult
  | none => .emptyDict
  | some df => .full (overviewOf df)

/-- Specification-side missing count: the sum, across all fields of all
records, of null occurrences (record by record). -/
def specMissing (df : DataFrame) : Nat :=
  (df.rows.map (fun r => r.countP cellIsNull)).sum

/-- Position `i` of a row list holds an exact duplicate of an earlier
record across all fields. -/
def dupAtIdx (rows : List (List Cell)) (i : Nat) : Prop :=
  ∃ j, j < i ∧ rows.getD j [] = rows.getD i []

instance (rows : List (List Cell)) (i : Nat) : Decidable (dupAtIdx rows i) := by
  unfold dupAtIdx; infer_instance

/-- Specification-side duplicate count: the number of record positions
that exactly duplicate an earlier record across all fields — one count
per extra occurrence. -/
def specDuplicates (df : DataFrame) : Nat :=
  (List.range df.rows.length).countP (fun i => decide (dupAtIdx df.rows i))

/-- Generalisation of duplicate marking for a scan in progress: the row
at position `i` already occurs in the seen set or earlier in the list. -/
def dupOrSeen (l seen : List (List Cell)) (i : Nat) : Prop :=
  l.getD i [] ∈ seen ∨ dupAtIdx l i

instance (l seen : List (List Cell)) (i : Nat) : Decidable (dupOrSeen l seen i) := by
  unfold dupOrSeen; infer_instance

/-!
## Entry point of src/App.py
-/

/-- Environment of the `App.py` entry point: whether
`Groceries_dataset.csv` exists in the working directory, and the reader
outcomes used by `load_data`. -/
structure AppEnv where
  cwdHasGroceries : Bool
  readCsv : LoadInput → ReadResult
  readExcel : LoadInput → ReadResult

/-- The default dataset path joined in `get_main_dataframe`
(src/App.py line 68). -/
def groceriesPath : String := "Groceries_dataset.csv"

/-- `get_main_dataframe` (src/App.py lines 64-71): when the default file
exists, defer to `load_data`; otherwise return `None`. -/
def get_main_dataframe (env : AppEnv) : Option DataFrame :=
  if env.cwdHasGroceries then
    load_data env.readCsv env.readExcel (.path groceriesPath)
  else none

/-- A Python evaluation outcome: a value, or a raised `AttributeError`
(the exception Python raises when an attribute such as `.copy` is looked
up on `None`). -/
inductive PyResult (α : Type)
  | ok (a : α)
  | attributeError
deriving DecidableEq

/-- src/App.py lines 73-75: `df = get_main_dataframe()` followed
unconditionally by `df = df.copy()` and `df.columns = df.columns.astype(str)`.
When `get_main_dataframe` returned `None`, the `.copy()` attribute lookup
on `None` raises; otherwise the copy and the column-name stringification
leave the (already string-named) dataset unchanged. -/
def appPrepareDf (env : AppEnv) : PyResult DataFrame :=
  match get_main_dataframe env with
  | none => .attributeError
  | some df => .ok df

/-- An `AppEnv` in which the groceries file is missing from the working
directory. -/
def envMissingFile : AppEnv :=
  ⟨false, fun _ => .err, fun _ => .err⟩

/-- An `AppEnv` in which the groceries file exists but reading it raises
(a read error inside `pd.read_csv`). -/
def envReadError : AppEnv :=
  ⟨true, fun _ => .err, fun _ => .err⟩

/-!
## Filtering and aggregates of src/app.py (billionaires dashboard)
-/

/-- One record of the billionaires dataset, with the columns src/app.py
reads: person name, country, industry, gender, net worth in billions and
age. -/
structure BRecord where
  personName : String
  country : String
  industries : String
  gender : String
  netWorth : Rat
  age : Rat
deriving DecidableEq

/-- The sidebar filter selection (src/app.py lines 155-171): `none`
models the 'All Countries' / 'All Industries' / 'All' sentinel choices,
and the slider endpoints are the integers `worthLo ≤ · ≤ worthHi`. -/
structure FilterSel where
  country : Option String
  industry : Option String
  gender : Option String
  worthLo : Int
  worthHi : Int
deriving DecidableEq

/-- One conditional categorical filter step of src/app.py lines 178-180:
`if sel != sentinel: filtered = filtered[filtered[col] == sel]`. -/
def catFilter (sel : Option String) (get : BRecord → String)
    (l : List BRecord) : List BRecord :=
  match sel with
  | none => l
  | some v => l.filter (fun r => get r == v)

/-- The worth-range mask of src/app.py line 181:
`(net_worth >= sel_worth[0]) & (net_worth <= sel_worth[1])`. -/
def worthPred (s : FilterSel) (r : BRecord) : Bool :=
  decide ((s.worthLo : Rat) ≤ r.netWorth) &&
    decide (r.netWorth ≤ (s.worthHi : Rat))

/-- The filtering logic of src/app.py lines 176-181: three conditional
categorical filters (country, industry, gender) followed by the inclusive
worth-range filter. -/
def applyFilters (df : List BRecord) (s : FilterSel) : List BRecord :=
  let f1 := catFilter s.country (fun r => r.country) df
  let f2 := catFilter s.industry (fun r => r.industries) f1
  let f3 := catFilter s.gender (fun r => r.gender) f2
  f3.filter (worthPred s)

/-- Specification-side categorical condition: the record satisfies every
selected categorical membership. -/
def catOk (s : FilterSel) (r : BRecord) : Prop :=
  (∀ c, s.country = some c → r.country = c) ∧
    (∀ v, s.industry = some v → r.industries = v) ∧
    (∀ v, s.gender = some v → r.gender = v)

/-- `total_count = len(filtered)` (src/app.py line 221). -/
def total_count (l : List BRecord) : Nat := l.length

/-- `total_wealth = filtered['net_worth_billions'].sum()` (line 222). -/
def total_wealth (l : List BRecord) : Rat :=
  (l.map (fun r => r.netWorth)).sum

/-- `avg_wealth = filtered[...].mean() if total_count > 0 else 0`
(src/app.py line 223). -/
def avg_wealth (l : List BRecord) : Rat :=
  if 0 < l.length then total_wealth l / (l.length : Rat) else 0

/-- pandas `max()` over a (nonempty) numeric column. -/
def seriesMax : List Rat → Rat
  | [] => 0
  | x :: xs => xs.foldl max x

/-- `top_wealth = filtered[...].max() if total_count > 0 else 0`
(src/app.py line 224). -/
def top_wealth (l : List BRecord) : Rat :=
  if 0 < l.length then seriesMax (l.map (fun r => r.netWorth)) else 0

/-- `unique_countries = filtered['country'].nunique()` (line 225). -/
def unique_countries (l : List BRecord) : Nat :=
  ((l.map (fun r => r.country)).dedup).length

/-- The centre annotation of the gender donut (src/app.py line 341):
`int(gender_counts.get('F', 0) / gender_counts.sum() * 100)`.
`gender_counts.sum()` is the number of filtered records; on an empty
filtered set the quotient is 0/0, whose truncation to `int` raises, which
is modelled by `none`. -/
def gender_donut_center (l : List BRecord) : Option Int :=
  let f := (l.filter (fun r => r.gender == "F")).length
  let tot := l.length
  if tot = 0 then none
  else some (Int.floor (((f : Rat) * 100) / (tot : Rat)))

/-- Two-record example dataset for src/app.py. -/
def exB1 : BRecord := ⟨"Alice", "US", "Tech", "M", 10, 50⟩

/-- Second record of the example dataset. -/
def exB2 : BRecord := ⟨"Bob", "FR", "Oil", "F", 5, 60⟩

/-- Example dataset with two records in distinct countries/industries. -/
def exBDf : List BRecord := [exB1, exB2]

/-- A filter selection (country US, industry Oil, full worth range) whose
two categorical predicates no single record satisfies together. -/
def exSelEmpty : FilterSel := ⟨some "US", some "Oil", none, 5, 10⟩

/-- A selection with only a country chosen. -/
def exSelUS : FilterSel := ⟨some "US", none, none, 5, 10⟩

/-- A selection whose worth range is inverted (`start > end`). -/
def exSelBad : FilterSel := ⟨none, none, none, 7, 3⟩

/-!
## Transaction-analytics core (modelled from the spec)

The components below (normalized transaction records, the temporal
aggregator and the co-occurrence engine of spec sections 4.1, 4.4 and
4.6) have no source under `src/`; they are modelled from the spec.
-/

/-- Modelled from the spec: a normalized TransactionRecord (spec section 3)
as produced by the Record Normalizer, which is missing from the
repository sources — customer identifier, canonical date string, item
description, and the derived weekday and month names. -/
structure TRecord where
  memberNumber : String
  dateStr : String
  itemDescription : String
  weekdayName : String
  monthName : String
deriving DecidableEq

/-- Modelled from the spec: the basket identifier is the concatenation of
the customer identifier and the parsed date's canonical string form
(spec section 4.1). -/
def basketId (r : TRecord) : String :=
  r.memberNumber ++ "_" ++ r.dateStr

/-- The fixed Monday-to-Sunday weekday axis (spec section 4.4). -/
def weekdayOrder : List String :=
  ["Monday", "Tuesday", "Wednesday", "Thursday", "Friday", "Saturday",
   "Sunday"]

/-- The fixed January-to-December month axis (spec section 4.4). -/
def monthOrder : List String :=
  ["January", "February", "March", "April", "May", "June", "July",
   "August", "September", "October", "November", "December"]

/-- Modelled from the spec: the Temporal Aggregator for a fixed bucket
axis (spec section 4.4) — every bucket of the axis appears, in axis
order, with the number of filtered records falling in it (zero included). -/
def bucketCounts (order : List String) (key : TRecord → String)
    (recs : List TRecord) : List (String × Nat) :=
  order.map (fun b => (b, (recs.filter (fun r => key r == b)).length))

/-- Modelled from the spec: weekday bucketing of the Temporal Aggregator. -/
def weekdayAgg (recs : List TRecord) : List (String × Nat) :=
  bucketCounts weekdayOrder (fun r => r.weekdayName) recs

/-- Modelled from the spec: month bucketing of the Temporal Aggregator. -/
def monthAgg (recs : List TRecord) : List (String × Nat) :=
  bucketCounts monthOrder (fun r => r.monthName) recs

/-- Total occurrence count of one item description in a record set
(spec section 4.6 step 1). -/
def itemCount (recs : List TRecord) (i : String) : Nat :=
  (recs.filter (fun r => r.itemDescription == i)).length

/-- The distinct item descriptions in first-encountered order. -/
def distinctItems (recs : List TRecord) : List String :=
  (recs.map (fun r => r.itemDescription)).dedup

/-- Stable insertion of an item into a count-descending list: an item
moves ahead only of items with strictly smaller counts, so equal counts
keep their first-encountered order. -/
def insertByCountDesc (cnt : String → Nat) (x : String) :
    List String → List String
  | [] => [x]
  | y :: ys =>
    if cnt y < cnt x then x :: y :: ys else y :: insertByCountDesc cnt x ys

/-- Stable sort of the items by descending occurrence count. -/
def sortByCountDesc (cnt : String → Nat) : List String → List String
  | [] => []
  | x :: xs => insertByCountDesc cnt x (sortByCountDesc cnt xs)

/-- Modelled from the spec: the top-K vocabulary (spec section 4.6
step 1) — items ranked by total occurrence count, ties broken by
first-encountered order, truncated to K (all items when fewer exist). -/
def topKVocab (recs : List TRecord) (K : Nat) : List String :=
  (sortByCountDesc (itemCount recs) (distinctItems recs)).take K

/-- Modelled from the spec: restriction of the record set to the retained
vocabulary (spec section 4.6 step 2). -/
def restrictToVocab (recs : List TRecord) (K : Nat) : List TRecord :=
  recs.filter (fun r => (topKVocab recs K).contains r.itemDescription)

/-- The distinct basket identifiers of a record set. -/
def basketIds (recs : List TRecord) : List String :=
  (recs.map basketId).dedup

/-- Modelled from the spec: the basket-by-item presence relation (spec
section 4.6 step 3) — 1 when the item appears at least once in the
basket, regardless of repeats. -/
def present (recs : List TRecord) (b i : String) : Bool :=
  recs.any (fun r => basketId r == b && r.itemDescription == i)

/-- Modelled from the spec: the raw co-occurrence count (spec section 4.6
step 4) — the number of distinct baskets in which both items are present. -/
def rawCo (recs : List TRecord) (i j : String) : Nat :=
  ((basketIds recs).filter (fun b => present recs b i && present recs b j)).length

/-- Modelled from the spec: the co-occurrence matrix entry (spec section
4.6 steps 2-5) over the vocabulary-restricted records, with the diagonal
forced to zero. -/
def cooccurrence (recs : List TRecord) (K : Nat) (i j : String) : Nat :=
  if i = j then 0 else rawCo (restrictToVocab recs K) i j

/-- Scenario A of the spec: one customer buying milk and bread on the
same day. -/
def scenarioA : List TRecord :=
  [⟨"C1", "2023-01-01", "milk", "Sunday", "January"⟩,
   ⟨"C1", "2023-01-01", "bread", "Sunday", "January"⟩]

/-!
## Concrete datasets for the overview claims
-/

/-- A concrete rectangular dataset: two columns, three rows, one null and
one duplicated row. -/
def exDf : DataFrame :=
  ⟨["Member_number", "itemDescription"],
   [.int64, .obj],
   [[.intV 1808, .strV "whole milk"],
    [.intV 2552, .null],
    [.intV 1808, .strV "whole milk"]]⟩

/-- A dataset with zero records but one declared column. -/
def exDfNoRows : DataFrame :=
  ⟨["Member_number"], [.int64], []⟩

/-- The fully empty dataset: zero records and zero columns. -/
def exDfEmpty : DataFrame := ⟨[], [], []⟩

/-!
## Helper lemmas
-/

/-- Any `catFilter` step is an unconditional `List.filter`. -/
theorem catFilter_eq_filter (sel : Option String) (get : BRecord → String)
    (l : List BRecord) :
    catFilter sel get l =
      l.filter (fun r => match sel with | none => true | some v => get r == v) := by
  cases sel with
  | none => simp [catFilter]
  | some v => rfl

/-- The single row predicate the four filter stages of src/app.py
lines 177-181 compose to. -/
def fullPred (s : FilterSel) (r : BRecord) : Bool :=
  worthPred s r &&
    ((match s.gender with | none => true | some v => r.gender == v) &&
      ((match s.industry with | none => true | some v => r.industries == v) &&
        (match s.country with | none => true | some v => r.country == v)))

/-- The filtering logic is one pure predicate filter. -/
theorem applyFilters_eq_filter (df : List BRecord) (s : FilterSel) :
    applyFilters df s = df.filter (fullPred s) := by
  obtain ⟨c, i, g, lo, hi⟩ := s
  simp only [applyFilters, catFilter_eq_filter, List.filter_filter]
  cases c <;> cases i <;> cases g <;> rfl

/-- Truth of the composed predicate, spelled out. -/
theorem fullPred_iff (s : FilterSel) (r : BRecord) :
    fullPred s r = true ↔
      catOk s r ∧ (s.worthLo : Rat) ≤ r.netWorth ∧ r.netWorth ≤ (s.worthHi : Rat) := by
  obtain ⟨c, i, g, lo, hi⟩ := s
  cases c <;> cases i <;> cases g <;>
    simp [fullPred, worthPred, catOk, Bool.and_eq_true, decide_eq_true_eq,
      beq_iff_eq] <;> tauto

/-!
## Claim theorems
-/

/-- Claim C10: calling `get_dataset_overview` with a `None` dataset
returns the empty mapping `{}` without raising. -/
theorem c10_overview_of_none_is_empty_dict :
    get_dataset_overview none = OverviewResult.emptyDict := rfl

/-- Claim C9: for every input to `load_data` — file-path string or named
buffer — whose name does not end in `.csv`, `.xls` or `.xlsx`,
`load_data` returns `None` without attempting a read, whatever the
readers would have produced. -/
theorem c9_load_data_none_on_unsupported_name
    (readCsv readExcel : LoadInput → ReadResult) (inp : LoadInput)
    (h1 : pyEndsWith inp.name ".csv" = false)
    (h2 : pyEndsWith inp.name ".xls" = false)
    (h3 : pyEndsWith inp.name ".xlsx" = false) :
    load_data readCsv readExcel inp = none := by
  cases inp with
  | path s =>
    simp only [LoadInput.name] at h1 h2 h3
    simp [load_data, h1, h2, h3]
  | buffer n k =>
    simp only [LoadInput.name] at h1 h2 h3
    simp [load_data, h1, h2, h3]

/-- Witness for C9: a readable existing file named `data.txt` — and a
buffer of the same name — is still refused with `None`. -/
theorem c9_witness :
    pyEndsWith (LoadInput.path "data.txt").name ".csv" = false ∧
    pyEndsWith (LoadInput.path "data.txt").name ".xls" = false ∧
    pyEndsWith (LoadInput.path "data.txt").name ".xlsx" = false ∧
    load_data (fun _ => .ok exDf) (fun _ => .ok exDf)
      (LoadInput.path "data.txt") = none ∧
    load_data (fun _ => .ok exDf) (fun _ => .ok exDf)
      (LoadInput.buffer "data.txt" "k") = none :=
  ⟨by decide, by decide, by decide,
    c9_load_data_none_on_unsupported_name _ _ _ (by decide) (by decide)
      (by decide),
    c9_load_data_none_on_unsupported_name _ _ _ (by decide) (by decide)
      (by decide)⟩

/-- Claim C1 (code evaluation at the failing inputs): on a read error
`load_data` does return `None` without raising, and `get_main_dataframe`
likewise returns `None` both when the groceries file is missing and when
reading it fails — but the module body of src/App.py (line 74) then
invokes `.copy()` on that `None` value and raises `AttributeError`
instead of refusing to run. -/
theorem c1_entry_point_operates_on_none :
    load_data envReadError.readCsv envReadError.readExcel
      (.path groceriesPath) = none ∧
    get_main_dataframe envReadError = none ∧
    get_main_dataframe envMissingFile = none ∧
    appPrepareDf envReadError = .attributeError ∧
    appPrepareDf envMissingFile = .attributeError :=
  ⟨by decide, by decide, rfl, by decide, rfl⟩

/-- Claim C3 (code evaluation at the failing input): the filter selection
`exSelEmpty` empties the two-record dataset; on the empty filtered set
every KPI aggregate of src/app.py lines 220-236 is a well-defined zero,
but the gender-donut centre computation of line 341 divides zero by zero
and raises (modelled by `none`) instead of producing a value. -/
theorem c3_empty_filter_kpis_zero_but_donut_raises :
    applyFilters exBDf exSelEmpty = [] ∧
    total_count [] = 0 ∧
    total_wealth [] = 0 ∧
    avg_wealth [] = 0 ∧
    top_wealth [] = 0 ∧
    unique_countries [] = 0 ∧
    gender_donut_center [] = none := by
  refine ⟨by decide, rfl, rfl, rfl, rfl, rfl, rfl⟩

/-- Claim C4: the filter is a pure predicate composition and idempotent —
for every dataset and fixed filter selection, filtering the filtered
result again yields the same result set. -/
theorem c4_filter_idempotent (df : List BRecord) (s : FilterSel) :
    applyFilters (applyFilters df s) s = applyFilters df s := by
  simp only [applyFilters_eq_filter, List.filter_filter]
  exact List.filter_congr (fun a _ => Bool.and_self (fullPred s a))

/-- Claim C5: a record is retained exactly when it lies in the dataset,
satisfies every categorical predicate, and its net worth `v` satisfies
`start ≤ v ≤ end` inclusively; and an inverted range (`start > end`)
does not raise but yields the empty set. -/
theorem c5_range_inclusive_and_inverted_range_empty
    (df : List BRecord) (s : FilterSel) :
    (∀ r, r ∈ applyFilters df s ↔
      r ∈ df ∧ catOk s r ∧
        (s.worthLo : Rat) ≤ r.netWorth ∧ r.netWorth ≤ (s.worthHi : Rat)) ∧
    (s.worthHi < s.worthLo → applyFilters df s = []) := by
  constructor
  · intro r
    rw [applyFilters_eq_filter, List.mem_filter, fullPred_iff]
  · intro h
    rw [applyFilters_eq_filter]
    refine List.filter_eq_nil_iff.mpr (fun r _ hr => ?_)
    obtain ⟨-, hlo, hhi⟩ := (fullPred_iff s r).mp hr
    have hc : (s.worthHi : Rat) < (s.worthLo : Rat) := by exact_mod_cast h
    linarith

/-- Witness for C5: the inverted range `[7, 3]` empties the example
dataset without raising. -/
theorem c5_witness :
    exSelBad.worthHi < exSelBad.worthLo ∧
    applyFilters exBDf exSelBad = [] :=
  ⟨by decide,
    (c5_range_inclusive_and_inverted_range_empty exBDf exSelBad).2
      (by decide)⟩

/-- Claim C7: for every filtered record set, weekday bucketing has
exactly 7 entries and month bucketing exactly 12, in fixed calendar order
(Monday to Sunday; January to December), and every bucket with no
occurrence in the filtered set still appears with count zero. -/
theorem c7_temporal_axes_complete (recs : List TRecord) :
    (weekdayAgg recs).length = 7 ∧
    (monthAgg recs).length = 12 ∧
    (weekdayAgg recs).map Prod.fst = weekdayOrder ∧
    (monthAgg recs).map Prod.fst = monthOrder ∧
    (∀ b, b ∈ weekdayOrder → (∀ r, r ∈ recs → r.weekdayName ≠ b) →
      (b, 0) ∈ weekdayAgg recs) ∧
    (∀ b, b ∈ monthOrder → (∀ r, r ∈ recs → r.monthName ≠ b) →
      (b, 0) ∈ monthAgg recs) := by
  refine ⟨?_, ?_, ?_, ?_, ?_, ?_⟩
  · simp [weekdayAgg, bucketCounts, weekdayOrder]
  · simp [monthAgg, bucketCounts, monthOrder]
  · simp [weekdayAgg, bucketCounts, List.map_map, Function.comp_def]
  · simp [monthAgg, bucketCounts, List.map_map, Function.comp_def]
  · intro b hb hnone
    have hnil : recs.filter (fun r => r.weekdayName == b) = [] :=
      List.filter_eq_nil_iff.mpr (fun r hr => by simp [hnone r hr])
    exact List.mem_map.mpr ⟨b, hb, by simp [hnil]⟩
  · intro b hb hnone
    have hnil : recs.filter (fun r => r.monthName == b) = [] :=
      List.filter_eq_nil_iff.mpr (fun r hr => by simp [hnone r hr])
    exact List.mem_map.mpr ⟨b, hb, by simp [hnil]⟩

/-- Witness for C7: the empty filtered set still yields the Sunday and
December buckets with count zero. -/
theorem c7_witness :
    ("Sunday" ∈ weekdayOrder) ∧
    (∀ r, r ∈ ([] : List TRecord) → r.weekdayName ≠ "Sunday") ∧
    ("Sunday", 0) ∈ weekdayAgg [] :=
  ⟨by decide, fun r hr => absurd hr (List.not_mem_nil r),
    (c7_temporal_axes_complete []).2.2.2.2.1 "Sunday" (by decide)
      (fun r hr => absurd hr (List.not_mem_nil r))⟩

/-- Claim C8: for every filtered record set and vocabulary size K, the
co-occurrence matrix is symmetric on the retained vocabulary and every
diagonal cell is exactly zero after construction. -/
theorem c8_cooccurrence_symmetric_zero_diagonal
    (recs : List TRecord) (K : Nat) (i j : String)
    (_hi : i ∈ topKVocab recs K) (_hj : j ∈ topKVocab recs K) :
    cooccurrence recs K i j = cooccurrence recs K j i ∧
    cooccurrence recs K i i = 0 := by
  constructor
  · by_cases hij : i = j
    · rw [hij]
    · rw [cooccurrence, cooccurrence, if_neg hij, if_neg (Ne.symm hij)]
      exact congrArg List.length
        (List.filter_congr (fun b _ => Bool.and_comm _ _))
  · simp [cooccurrence]

/-- Witness for C8: Scenario A of the spec — one customer buying milk
and bread on one day; both items are in the top-2 vocabulary, the matrix
is symmetric there and the milk diagonal cell is zero. -/
theorem c8_witness :
    ("milk" ∈ topKVocab scenarioA 2) ∧
    ("bread" ∈ topKVocab scenarioA 2) ∧
    (cooccurrence scenarioA 2 "milk" "bread" =
        cooccurrence scenarioA 2 "bread" "milk" ∧
      cooccurrence scenarioA 2 "milk" "milk" = 0) :=
  ⟨by decide, by decide,
    c8_cooccurrence_symmetric_zero_diagonal scenarioA 2 "milk" "bread"
      (by decide) (by decide)⟩

/-- Summing a function over `List.range` is a `Finset.range` sum. -/
theorem listSum_range_map (n : Nat) (f : Nat → Nat) :
    ((List.range n).map f).sum = ∑ j ∈ Finset.range n, f j := by
  induction n with
  | zero => simp
  | succ m ih =>
    rw [List.range_succ, List.map_append, List.sum_append,
      Finset.sum_range_succ, ih]
    simp

/-- `countP` of a list as a positional indicator sum. -/
theorem countP_eq_sum_getD {α : Type} (p : α → Bool) (d : α) (r : List α) :
    r.countP p =
      ∑ j ∈ Finset.range r.length, if p (r.getD j d) then 1 else 0 := by
  induction r with
  | nil => simp
  | cons a t ih =>
    rw [List.countP_cons, List.length_cons, Finset.sum_range_succ']
    simp only [List.getD_cons_succ, List.getD_cons_zero]
    rw [← ih]

/-- Swapping the two summations of the missing-value count: summing null
counts column by column equals summing them record by record, on a
rectangular row set. -/
theorem col_row_swap (n : Nat) (rows : List (List Cell))
    (h : ∀ r ∈ rows, r.length = n) :
    ∑ j ∈ Finset.range n,
        (rows.map (fun r => r.getD j (Cell.strV ""))).countP cellIsNull
      = (rows.map (fun r => r.countP cellIsNull)).sum := by
  induction rows with
  | nil => simp
  | cons r t ih =>
    have hr : r.length = n := h r (by simp)
    have ht : ∀ x ∈ t, x.length = n := fun x hx => h x (by simp [hx])
    simp only [List.map_cons, List.countP_cons, List.sum_cons]
    rw [Finset.sum_add_distrib, ih ht,
      countP_eq_sum_getD cellIsNull (Cell.strV "") r, hr]
    omega

/-- Under rectangularity, the code's per-column missing-value total is
the spec's per-record total. -/
theorem missing_eq_spec (df : DataFrame) (h : df.WF) :
    missingValues df = specMissing df := by
  unfold missingValues specMissing colCells
  rw [listSum_range_map]
  exact col_row_swap df.colNames.length df.rows h.2

/-- Shifting the scan property across the head of the list. -/
theorem dupOrSeen_succ (r : List Cell) (t seen : List (List Cell)) (i : Nat) :
    dupOrSeen (r :: t) seen (i + 1) ↔ dupOrSeen t (r :: seen) i := by
  unfold dupOrSeen dupAtIdx
  simp only [List.getD_cons_succ]
  constructor
  · rintro (hs | ⟨j, hj, hEq⟩)
    · exact Or.inl (List.mem_cons_of_mem r hs)
    · cases j with
      | zero =>
        left
        rw [List.getD_cons_zero] at hEq
        rw [← hEq]
        exact List.mem_cons_self r seen
      | succ k =>
        right
        exact ⟨k, by omega, by simpa using hEq⟩
  · rintro (hs | ⟨j, hj, hEq⟩)
    · rcases List.mem_cons.mp hs with hh | hh
      · right
        exact ⟨0, by omega, by simp [hh.symm]⟩
      · exact Or.inl hh
    · right
      exact ⟨j + 1, by omega, by simpa using hEq⟩

/-- The scan property at the head of the list. -/
theorem dupOrSeen_zero (r : List Cell) (t seen : List (List Cell)) :
    dupOrSeen (r :: t) seen 0 ↔ r ∈ seen := by
  unfold dupOrSeen dupAtIdx
  simp

/-- The seen-set scan of `df.duplicated()` counts exactly the positions
whose row occurs in the seen set or earlier in the list. -/
theorem dupScan_eq_countP (l : List (List Cell)) : ∀ seen,
    dupScan seen l =
      (List.range l.length).countP (fun i => decide (dupOrSeen l seen i)) := by
  induction l with
  | nil => intro seen; simp [dupScan]
  | cons r t ih =>
    intro seen
    rw [dupScan, ih (r :: seen), List.length_cons, List.range_succ_eq_map,
      List.countP_cons, List.countP_map]
    have hc : List.countP
        ((fun i => decide (dupOrSeen (r :: t) seen i)) ∘ Nat.succ)
        (List.range t.length)
        = List.countP (fun i => decide (dupOrSeen t (r :: seen) i))
          (List.range t.length) :=
      List.countP_congr (fun i _ => by
        simp only [Function.comp_apply, decide_eq_true_eq]
        exact dupOrSeen_succ r t seen i)
    rw [hc]
    have h0 : decide (dupOrSeen (r :: t) seen 0) = decide (r ∈ seen) :=
      decide_eq_decide.mpr (dupOrSeen_zero r t seen)
    rw [h0]
    simp only [decide_eq_true_eq]
    omega

/-- The code's duplicate count equals the spec's "duplicates an earlier
record, once per extra occurrence" count, unconditionally. -/
theorem duplicates_eq_spec (df : DataFrame) :
    duplicateRows df = specDuplicates df := by
  unfold duplicateRows specDuplicates
  rw [dupScan_eq_countP df.rows []]
  apply List.countP_congr
  intro i _
  simp only [decide_eq_true_eq]
  unfold dupOrSeen
  simp

/-- Membership description of the dtype histogram. -/
theorem mem_columnTypeCounts (df : DataFrame) (t : Dtype) (k : Nat) :
    (t, k) ∈ columnTypeCounts df ↔
      t ∈ df.colTypes ∧ k = df.colTypes.count t := by
  unfold columnTypeCounts
  rw [List.mem_map]
  constructor
  · rintro ⟨a, ha, heq⟩
    cases heq
    exact ⟨List.mem_dedup.mp ha, rfl⟩
  · rintro ⟨ht, hk⟩
    exact ⟨t, List.mem_dedup.mpr ht, by rw [hk]⟩

/-- Claim C2: on every (rectangular) non-`None` dataset the overview's
missing-value count is the per-record null total, the duplicate-row
count counts each record duplicating an earlier one once per extra
occurrence, the memory field is the byte estimate in megabytes rounded
to 2 decimals, and the column-type mapping sends each declared dtype to
the number of columns of that dtype. -/
theorem c2_overview_fields_correct (df : DataFrame) (h : df.WF) :
    get_dataset_overview (some df) = .full (overviewOf df) ∧
    (overviewOf df).nRows = df.rows.length ∧
    (overviewOf df).nColumns = df.colNames.length ∧
    (overviewOf df).missing = specMissing df ∧
    (overviewOf df).duplicates = specDuplicates df ∧
    (overviewOf df).memMb = round2 ((memoryBytes df : Rat) / 1024 ^ 2) ∧
    (∀ t k, (t, k) ∈ (overviewOf df).colTypeMap ↔
      t ∈ df.colTypes ∧ k = df.colTypes.count t) :=
  ⟨rfl, rfl, rfl, missing_eq_spec df h, duplicates_eq_spec df, rfl,
    fun t k => mem_columnTypeCounts df t k⟩

/-- Witness for C2 on a concrete dataset with a null and a duplicate. -/
theorem c2_witness :
    exDf.WF ∧
    (get_dataset_overview (some exDf) = .full (overviewOf exDf) ∧
      (overviewOf exDf).nRows = exDf.rows.length ∧
      (overviewOf exDf).nColumns = exDf.colNames.length ∧
      (overviewOf exDf).missing = specMissing exDf ∧
      (overviewOf exDf).duplicates = specDuplicates exDf ∧
      (overviewOf exDf).memMb =
        round2 ((memoryBytes exDf : Rat) / 1024 ^ 2) ∧
      (∀ t k, (t, k) ∈ (overviewOf exDf).colTypeMap ↔
        t ∈ exDf.colTypes ∧ k = exDf.colTypes.count t)) :=
  ⟨by decide, c2_overview_fields_correct exDf (by decide)⟩

/-- A column with no values occupies no bytes. -/
theorem colBytes_nil (t : Dtype) : colBytes t [] = 0 := by
  cases t <;> simp [colBytes]

/-- Counterexample for C6: a dataset with zero records but one declared
column — `get_dataset_overview` reports column count 1 and a nonempty
column-type mapping, so not every overview field is zero. -/
theorem c6_counterexample_zero_rows_with_column :
    exDfNoRows.rows = [] ∧
    (overviewOf exDfNoRows).nColumns = 1 ∧
    ¬((overviewOf exDfNoRows).nColumns = 0 ∧
      (overviewOf exDfNoRows).colTypeMap = []) := by
  refine ⟨rfl, rfl, ?_⟩
  rintro ⟨hc, -⟩
  exact absurd hc (by decide)

/-- Claim C6 as amended: `get_dataset_overview` has no error conditions,
and on a dataset with zero records the row-derived overview fields are
zero — row count 0, missing-value count 0, duplicate-row count 0, memory
footprint 0.0 — while the column count equals the number of declared
columns and the column-type mapping counts those declared columns (both
zero/empty exactly when the dataset also has no columns). -/
theorem c6_overview_of_zero_record_dataset (df : DataFrame)
    (h : df.rows = []) :
    get_dataset_overview (some df) = .full (overviewOf df) ∧
    (overviewOf df).nRows = 0 ∧
    (overviewOf df).missing = 0 ∧
    (overviewOf df).duplicates = 0 ∧
    (overviewOf df).memMb = 0 ∧
    (overviewOf df).nColumns = df.colNames.length ∧
    (overviewOf df).colTypeMap =
      df.colTypes.dedup.map (fun t => (t, df.colTypes.count t)) ∧
    (df.colNames = [] → (overviewOf df).nColumns = 0) ∧
    (df.colTypes = [] → (overviewOf df).colTypeMap = []) := by
  refine ⟨rfl, ?_, ?_, ?_, ?_, rfl, rfl, ?_, ?_⟩
  · simp [overviewOf, h]
  · show missingValues df = 0
    unfold missingValues
    apply List.sum_eq_zero
    intro x hx
    obtain ⟨j, -, rfl⟩ := List.mem_map.mp hx
    simp [colCells, h]
  · show duplicateRows df = 0
    unfold duplicateRows
    rw [h]
    rfl
  · show memoryUsageMb df = 0
    have hb : memoryBytes df = 132 := by
      unfold memoryBytes
      have hz : ((List.range df.colNames.length).map
          (fun j => colBytes (df.colTypes.getD j .obj) (colCells df j))).sum
          = 0 := by
        apply List.sum_eq_zero
        intro x hx
        obtain ⟨j, -, rfl⟩ := List.mem_map.mp hx
        rw [colCells, h]
        exact colBytes_nil _
      rw [hz]
    unfold memoryUsageMb round2
    rw [hb]
    have hr : round (((132 : Nat) : Rat) / 1024 ^ 2 * 100) = 0 := by
      rw [round_eq]
      norm_num [Int.floor_eq_zero_iff, Set.mem_Ico]
    rw [hr]
    norm_num
  · intro hc
    simp [overviewOf, hc]
  · intro hc
    simp [overviewOf, columnTypeCounts, hc]

/-- Witness for the amended C6: the fully empty dataset yields the
all-zero overview. -/
theorem c6_witness :
    exDfEmpty.rows = [] ∧
    (get_dataset_overview (some exDfEmpty) = .full (overviewOf exDfEmpty) ∧
      (overviewOf exDfEmpty).nRows = 0 ∧
      (overviewOf exDfEmpty).missing = 0 ∧
      (overviewOf exDfEmpty).duplicates = 0 ∧
      (overviewOf exDfEmpty).memMb = 0 ∧
      (overviewOf exDfEmpty).nColumns = exDfEmpty.colNames.length ∧
      (overviewOf exDfEmpty).colTypeMap =
        exDfEmpty.colTypes.dedup.map
          (fun t => (t, exDfEmpty.colTypes.count t)) ∧
      (exDfEmpty.colNames = [] → (overviewOf exDfEmpty).nColumns = 0) ∧
      (exDfEmpty.colTypes = [] → (overviewOf exDfEmpty).colTypeMap = [])) :=
  ⟨rfl, c6_overview_of_zero_record_dataset exDfEmpty rfl⟩
